import Mathlib

/-!
Shallow embedding of the core statistical / normalization layer of the
`ai-service` (demand forecasting, delivery prediction, anomaly detection).

Conventions used throughout:
* Python `float` values are modelled as `ℚ` (the computations at issue are
  structural / order-theoretic and exact on the rationals).
* Python `dict[str, float]` objects are modelled as association lists
  `List (String × ℚ)` in insertion order, with unique keys where relevant
  (Python dicts cannot hold duplicate keys); `dictLookup` is dict access.
* Timestamps (`datetime`) are modelled as integers on the appropriate
  granularity (minutes for anomaly next-check times, days for forecast
  item dates), with the evaluation instant `now` passed explicitly.
* "Unset" attributes probed by the result normalizers (`hasattr` /
  falsiness / `== 0` checks) are modelled as `Option` fields, `none`
  meaning unset.
-/

namespace AiService

/-- Python `'std' in metric` — substring test, specialised to the literal
pattern used by `_calculate_alert_thresholds`
(src/ai-service/agents/anomaly_detection.py, line 252). -/
def containsStd : List Char → Bool
  | 's' :: 't' :: 'd' :: _ => true
  | _ :: rest => containsStd rest
  | [] => false

/-- Python `metric.replace('avg', 'std')` — left-to-right replacement of every
non-overlapping occurrence, specialised to the literal pattern/replacement used
by `_calculate_alert_thresholds` (anomaly_detection.py, line 257). -/
def replaceAvgStd : List Char → List Char
  | 'a' :: 'v' :: 'g' :: rest => 's' :: 't' :: 'd' :: replaceAvgStd rest
  | c :: rest => c :: replaceAvgStd rest
  | [] => []

/-- Dictionary access on an association list (Python `d[k]` guarded by
`k in d`, yielding `none` when the key is absent). Python dicts have unique
keys, so taking the first binding is faithful. -/
def dictLookup (l : List (String × ℚ)) (k : String) : Option ℚ :=
  match l with
  | [] => none
  | (a, b) :: t => if a = k then some b else dictLookup t k

/-- The loop body of `_calculate_alert_thresholds`
(anomaly_detection.py, lines 251-261): the threshold entries contributed by
one baseline metric `(metric, value)`, given the whole baseline mapping and
the already-computed sensitivity factor. A metric whose name contains `std`
contributes `<metric>_threshold`; any other metric contributes
`<metric>_upper` / `<metric>_lower` exactly when the key
`metric.replace('avg', 'std')` is present in the mapping (for a metric whose
name does not contain `avg`, that key is the metric itself). -/
def thresholdEntries (baseline_metrics : List (String × ℚ)) (factor : ℚ)
    (p : String × ℚ) : List (String × ℚ) :=
  if containsStd p.1.data then
    [(p.1 ++ "_threshold", p.2 * factor)]
  else
    match dictLookup baseline_metrics ⟨replaceAvgStd p.1.data⟩ with
    | some std_value =>
        [(p.1 ++ "_upper", p.2 + std_value * factor),
         (p.1 ++ "_lower", p.2 - std_value * factor)]
    | none => []

/-- `_calculate_alert_thresholds(baseline_metrics, sensitivity)`
(anomaly_detection.py, lines 241-263): iterate over the baseline metrics in
insertion order, accumulating threshold entries, with
`sensitivity_factor = 2.0 - sensitivity`. -/
def calculate_alert_thresholds (baseline_metrics : List (String × ℚ))
    (sensitivity : ℚ) : List (String × ℚ) :=
  let sensitivity_factor := 2 - sensitivity
  baseline_metrics.foldl
    (fun acc p => acc ++ thresholdEntries baseline_metrics sensitivity_factor p)
    []

/-- One historical record as consumed by `_calculate_seasonal_patterns`
(src/ai-service/agents/demand_forecasting.py, lines 110-154): the only fields
read are the record's `quantity` and the calendar month of
`orders.created_at`. `order_month = none` models a record whose `orders`
field is absent / not a dict or whose date cannot be extracted (such rows are
dropped by `dropna`); a record list in which no row has a usable date also
covers the source's early return when the `orders` column is missing. -/
structure OrderItemRecord where
  order_month : Option Nat
  quantity : ℚ

/-- The dated observations surviving date extraction and `dropna`
(demand_forecasting.py, lines 125-128): month paired with quantity. -/
def datedObservations (historical_data : List OrderItemRecord) :
    List (Nat × ℚ) :=
  historical_data.filterMap (fun r => r.order_month.map (fun m => (m, r.quantity)))

/-- `_calculate_seasonal_patterns(historical_data)`
(demand_forecasting.py, lines 110-154): empty input returns the empty
mapping; otherwise, after dropping undatable rows (empty result again if
nothing survives), each month 1..12 maps to that month's mean `quantity`
divided by the overall mean, defaulting to `1.0` for unobserved months. -/
def calculate_seasonal_patterns (historical_data : List OrderItemRecord) :
    List (String × ℚ) :=
  if historical_data.isEmpty then []
  else
    let dated := datedObservations historical_data
    if dated.isEmpty then []
    else
      let overall_avg := (dated.map Prod.snd).sum / (dated.length : ℚ)
      (List.range' 1 12).map (fun month =>
        let monthObs := dated.filter (fun p => p.1 == month)
        if monthObs.isEmpty then
          ("month_" ++ toString month, (1 : ℚ))
        else
          ("month_" ++ toString month,
            ((monthObs.map Prod.snd).sum / (monthObs.length : ℚ)) / overall_avg))

/-- Decimal digits to a natural number; `none` unless the character list is
non-empty and all digits. -/
def digitsToNat? (l : List Char) : Option Nat :=
  if l = [] then none
  else
    l.foldl
      (fun acc? c =>
        acc?.bind (fun acc =>
          if c.isDigit then some (acc * 10 + (c.toNat - 48)) else none))
      (some 0)

/-- Model of Python `int(s)` on the 3-character zip slices taken by
`_estimate_distance`: an optional sign followed by decimal digits. (Python
`int` additionally strips surrounding whitespace and allows underscores
between digits; such strings do not arise as postal-code data and are
conservatively treated as malformed here.) -/
def pyInt? : List Char → Option Int
  | '-' :: rest => (digitsToNat? rest).map (fun n => -(n : Int))
  | '+' :: rest => (digitsToNat? rest).map (fun n => (n : Int))
  | l => (digitsToNat? l).map (fun n => (n : Int))

/-- `int(zip_code[:3]) if zip_code else 0`
(src/ai-service/agents/delivery_prediction.py, lines 239-240): the empty
string short-circuits to `0` without parsing; otherwise the first three
characters are parsed, `none` modelling the `ValueError` of a malformed
prefix. -/
def zipNum (zip_code : String) : Option Int :=
  if zip_code = "" then some 0 else pyInt? (zip_code.data.take 3)

/-- `_estimate_distance(origin_zip, dest_zip)`
(delivery_prediction.py, lines 234-247): `|origin_num - dest_num| * 50`
capped at 3000 miles; any parse failure falls into the `except` branch and
returns the 500-mile default. -/
def estimate_distance (origin_zip dest_zip : String) : ℚ :=
  match zipNum origin_zip, zipNum dest_zip with
  | some origin_num, some dest_num =>
      let zip_diff : ℕ := (origin_num - dest_num).natAbs
      min ((zip_diff : ℚ) * 50) 3000
  | _, _ => 500

/-- Validation of `DemandForecastRequest` (src/ai-service/models/requests.py,
lines 8-13): pydantic accepts the request iff every declared field constraint
holds. `forecast_days` carries `ge=1, le=365`; `product_ids` is required but
carries no constraint beyond being a list of strings (in particular, no
minimum length), so it does not appear in the acceptance condition. -/
def demandForecastRequestValid (product_ids : List String)
    (forecast_days : Int) : Bool :=
  decide (1 ≤ forecast_days) && decide (forecast_days ≤ 365)

/-- Validation of `AnomalyDetectionRequest` (requests.py, lines 25-30):
`sensitivity` carries `ge=0.0, le=1.0`; the remaining fields carry no value
constraints. -/
def anomalyDetectionRequestValid (sensitivity : ℚ) : Bool :=
  decide (0 ≤ sensitivity) && decide (sensitivity ≤ 1)

/-- The only field of `AnomalyItem` (src/ai-service/models/responses.py,
lines 36-43) read by the result normalizer. -/
structure AnomalyItem where
  severity : String
  deriving DecidableEq

/-- The oracle's `AnomalyDetectionResponse` as probed by
`_enhance_detection_result` (anomaly_detection.py, lines 350-383): `none`
models an attribute that is missing or falsy under the source's
`hasattr` / truthiness / `== 0` checks. -/
structure AnomalyOracleResult where
  anomalies : Option (List AnomalyItem)
  total_anomalies : Int
  model_confidence : Option ℚ
  next_check_recommended : Option Int

/-- The normalized `AnomalyDetectionResponse` (responses.py, lines 46-52),
with times in minutes. -/
structure AnomalyDetectionResponseM where
  anomalies : List AnomalyItem
  total_anomalies : Int
  analysis_period : Int × Int
  model_confidence : ℚ
  next_check_recommended : Int

/-- `_enhance_detection_result(result, context, time_range)`
(anomaly_detection.py, lines 350-384). `historical_data_len` and
`baseline_metrics_len` are `len(context.historical_data)` and
`len(context.baseline_metrics)`; `now` is the evaluation instant
(`datetime.now()`), in minutes, so that `timedelta(minutes=15)`,
`timedelta(hours=1)` and `timedelta(hours=4)` are `+15`, `+60`, `+240`. -/
def enhance_detection_result (result : AnomalyOracleResult)
    (historical_data_len baseline_metrics_len : Nat)
    (time_range : Int × Int) (now : Int) : AnomalyDetectionResponseM :=
  let anomalies := match result.anomalies with
    | none => []
    | some l => l
  let total_anomalies : Int := anomalies.length
  let model_confidence := match result.model_confidence with
    | some c =>
        if c = 0 then
          (min ((historical_data_len : ℚ) / 100) 1 +
            min ((baseline_metrics_len : ℚ) / 10) 1) / 2
        else c
    | none =>
        (min ((historical_data_len : ℚ) / 100) 1 +
          min ((baseline_metrics_len : ℚ) / 10) 1) / 2
  let next_check_recommended := match result.next_check_recommended with
    | some t => t
    | none =>
        if total_anomalies > 0 then
          let critical_anomalies :=
            (anomalies.filter (fun a => a.severity == "critical")).length
          if critical_anomalies > 0 then now + 15 else now + 60
        else now + 240
  { anomalies := anomalies,
    total_anomalies := total_anomalies,
    analysis_period := time_range,
    model_confidence := model_confidence,
    next_check_recommended := next_check_recommended }

/-- `DemandForecastItem` (responses.py, lines 8-15), with the item date in
days (`datetime.now() + timedelta(days=i)` is modelled as `now + i`). -/
structure DemandForecastItem where
  product_id : String
  warehouse_id : Option String
  date : Int
  predicted_demand : ℚ
  confidence_score : ℚ
  seasonal_factor : Option ℚ
  deriving DecidableEq

/-- The oracle's `DemandForecastResponse` as probed by
`_enhance_forecast_result` (demand_forecasting.py, lines 201-230): `none`
models an unset `model_accuracy` (the source also treats the value 0 as
unset). -/
structure DemandOracleResult where
  forecasts : List DemandForecastItem
  model_accuracy : Option ℚ

/-- The normalized `DemandForecastResponse` (responses.py, lines 18-23). -/
structure DemandForecastResponseM where
  forecasts : List DemandForecastItem
  model_accuracy : ℚ
  generated_at : Int
  forecast_horizon_days : Int

/-- `_enhance_forecast_result(result, forecast_days)`
(demand_forecasting.py, lines 201-230). When the oracle's `forecasts` list is
empty, `min(forecast_days, 7)` placeholder items are synthesized for
`i in range(...)`, each with the fixed `product_id="sample_product"`,
`warehouse_id=None`, date `now + i`, demand 10.0, confidence 0.7 and
seasonal factor 1.0; the requested `product_ids` / `warehouse_ids` are not
inputs of this function at all. -/
def enhance_forecast_result (result : DemandOracleResult)
    (forecast_days : Int) (now : Int) : DemandForecastResponseM :=
  let forecasts :=
    if result.forecasts.isEmpty then
      (List.range (min forecast_days 7).toNat).map (fun (i : Nat) =>
        { product_id := "sample_product"
          warehouse_id := none
          date := now + (i : Int)
          predicted_demand := 10
          confidence_score := 7/10
          seasonal_factor := some 1 : DemandForecastItem })
    else result.forecasts
  { forecasts := forecasts,
    model_accuracy := match result.model_accuracy with
      | some a => if a = 0 then 85/100 else a
      | none => 85/100,
    generated_at := now,
    forecast_horizon_days := forecast_days }

/-- The alert-threshold mapping as described, entry by entry: in metric
order, a metric whose name contains `std` yields `<metric>_threshold`
scaled by the sensitivity factor; any other metric yields
`<metric>_upper` / `<metric>_lower` exactly when the key obtained by the
`avg → std` substitution is present in the baseline mapping; all other
metrics yield nothing. -/
def alertThresholdsSpec (baseline_metrics : List (String × ℚ))
    (sensitivity : ℚ) : List (String × ℚ) :=
  baseline_metrics.flatMap (fun p =>
    if containsStd p.1.data then
      [(p.1 ++ "_threshold", p.2 * (2 - sensitivity))]
    else
      match dictLookup baseline_metrics ⟨replaceAvgStd p.1.data⟩ with
      | some std_value =>
          [(p.1 ++ "_upper", p.2 + std_value * (2 - sensitivity)),
           (p.1 ++ "_lower", p.2 - std_value * (2 - sensitivity))]
      | none => [])

theorem foldl_append_eq_flatMap {α β : Type} (f : α → List β) (l : List α) :
    ∀ acc : List β, l.foldl (fun a x => a ++ f x) acc = acc ++ l.flatMap f := by
  induction l with
  | nil => intro acc; simp
  | cons x t ih => intro acc; simp [ih, List.append_assoc]

theorem calculate_alert_thresholds_eq_flatMap (bm : List (String × ℚ))
    (s : ℚ) :
    calculate_alert_thresholds bm s = bm.flatMap (thresholdEntries bm (2 - s)) := by
  simpa using foldl_append_eq_flatMap (thresholdEntries bm (2 - s)) bm []

theorem dictLookup_eq_some (l : List (String × ℚ)) (k : String) (v : ℚ)
    (hnd : (l.map Prod.fst).Nodup) (hmem : (k, v) ∈ l) :
    dictLookup l k = some v := by
  induction l with
  | nil => simp at hmem
  | cons p t ih =>
    rcases List.mem_cons.1 hmem with h | h
    · rw [← h]
      simp [dictLookup]
    · have hne : p.1 ≠ k := by
        intro hk
        have : k ∈ t.map Prod.fst := List.mem_map.2 ⟨(k, v), h, rfl⟩
        rw [List.map_cons, List.nodup_cons, hk] at hnd
        exact hnd.1 this
      simp [dictLookup, hne]
      exact ih (List.nodup_cons.1 (by simpa using hnd)).2 h

theorem dictLookup_mem (l : List (String × ℚ)) (k : String) (v : ℚ)
    (h : dictLookup l k = some v) : (k, v) ∈ l := by
  induction l with
  | nil => simp [dictLookup] at h
  | cons p t ih =>
    by_cases hk : p.1 = k
    · simp [dictLookup, hk] at h
      exact List.mem_cons.2 (Or.inl (Prod.ext hk.symm h.symm))
    · simp [dictLookup, hk] at h
      exact List.mem_cons_of_mem _ (ih h)

theorem keys_thresholdEntries (bm : List (String × ℚ)) (f1 f2 : ℚ)
    (p : String × ℚ) :
    (thresholdEntries bm f1 p).map Prod.fst =
      (thresholdEntries bm f2 p).map Prod.fst := by
  unfold thresholdEntries
  by_cases h : containsStd p.1.data
  · simp [h]
  · simp only [h, Bool.false_eq_true, if_false]
    rcases hl : dictLookup bm ⟨replaceAvgStd p.1.data⟩ with _ | sv <;> simp

theorem map_fst_flatMap_congr {α : Type} (l : List α)
    (f g : α → List (String × ℚ))
    (h : ∀ p, (f p).map Prod.fst = (g p).map Prod.fst) :
    (l.flatMap f).map Prod.fst = (l.flatMap g).map Prod.fst := by
  induction l with
  | nil => simp
  | cons x t ih => simp [ih, h x]

/-- C1: for every baseline mapping (with the distinct keys a Python dict
guarantees) and every sensitivity, the computed thresholds are exactly
`alertThresholdsSpec`: `std`-named metrics emit `<m>_threshold`, and every
other metric emits `<m>_upper` / `<m>_lower` exactly when the key
`m.replace('avg','std')` is present in the mapping. In particular a metric
whose name contains neither `std` nor `avg` (e.g. a min/max metric) matches
itself under the substitution and therefore emits
`<m>_upper = value + value·factor` and `<m>_lower = value − value·factor`,
rather than emitting nothing. -/
theorem C1_alert_thresholds_shape (bm : List (String × ℚ)) (s : ℚ)
    (hnd : (bm.map Prod.fst).Nodup) :
    calculate_alert_thresholds bm s = alertThresholdsSpec bm s ∧
    ∀ (m : String) (v : ℚ), (m, v) ∈ bm → containsStd m.data = false →
      replaceAvgStd m.data = m.data →
      (m ++ "_upper", v + v * (2 - s)) ∈ calculate_alert_thresholds bm s ∧
      (m ++ "_lower", v - v * (2 - s)) ∈ calculate_alert_thresholds bm s := by
  constructor
  · rw [calculate_alert_thresholds_eq_flatMap]
    rfl
  · intro m v hmem hstd hrep
    have hlk : dictLookup bm ⟨replaceAvgStd m.data⟩ = some v := by
      rw [hrep]
      exact dictLookup_eq_some bm m v hnd hmem
    rw [calculate_alert_thresholds_eq_flatMap]
    constructor
    · exact List.mem_flatMap.2 ⟨(m, v), hmem, by simp [thresholdEntries, hstd, hlk]⟩
    · exact List.mem_flatMap.2 ⟨(m, v), hmem, by simp [thresholdEntries, hstd, hlk]⟩

/-- C1 witness: a concrete baseline with an `avg`/`std` pair, evaluated at
sensitivity 1/2. -/
theorem C1_witness :
    ([("avg_price", (10 : ℚ)), ("std_price", 2)].map Prod.fst).Nodup ∧
    calculate_alert_thresholds [("avg_price", 10), ("std_price", 2)] (1/2) =
      alertThresholdsSpec [("avg_price", 10), ("std_price", 2)] (1/2) :=
  ⟨by decide,
   (C1_alert_thresholds_shape [("avg_price", 10), ("std_price", 2)] (1/2)
     (by decide)).1⟩

/-- C1 counterexample: `min_price` has no `std` counterpart and contains
neither `std` nor `avg`, yet the computation emits upper/lower entries for
it (at sensitivity 0 the factor is 2, so `1 ± 1·2`), contradicting the
claim that such metrics produce no threshold entries at all. -/
theorem C1_counterexample :
    calculate_alert_thresholds [("min_price", 1)] 0 =
      [("min_price_upper", 3), ("min_price_lower", -1)] := by
  simp +decide [calculate_alert_thresholds, thresholdEntries, dictLookup]
  norm_num

/-- C5 (amended): with `s1 < s2` in `[0,1]` and nonnegative baseline values,
the two threshold mappings carry the same keys in the same order, and each
bound tightens in the interval sense: a `std` metric's `<m>_threshold`
shrinks in magnitude, while an upper bound does not increase and a lower
bound does not decrease. -/
theorem C5_threshold_tightening (bm : List (String × ℚ)) (s1 s2 : ℚ)
    (h0 : 0 ≤ s1) (h12 : s1 < s2) (h1 : s2 ≤ 1)
    (hnn : ∀ p ∈ bm, 0 ≤ p.2) :
    (calculate_alert_thresholds bm s1).map Prod.fst =
      (calculate_alert_thresholds bm s2).map Prod.fst ∧
    ∀ p ∈ bm,
      (containsStd p.1.data = true →
        thresholdEntries bm (2 - s2) p = [(p.1 ++ "_threshold", p.2 * (2 - s2))] ∧
        |p.2 * (2 - s2)| ≤ |p.2 * (2 - s1)|) ∧
      (containsStd p.1.data = false →
        ∀ sv, dictLookup bm ⟨replaceAvgStd p.1.data⟩ = some sv →
          thresholdEntries bm (2 - s2) p =
            [(p.1 ++ "_upper", p.2 + sv * (2 - s2)),
             (p.1 ++ "_lower", p.2 - sv * (2 - s2))] ∧
          p.2 + sv * (2 - s2) ≤ p.2 + sv * (2 - s1) ∧
          p.2 - sv * (2 - s1) ≤ p.2 - sv * (2 - s2)) := by
  have h2a : (0 : ℚ) < 2 - s2 := by linarith
  have h2b : (0 : ℚ) < 2 - s1 := by linarith
  have hfac : 2 - s2 ≤ 2 - s1 := by linarith
  constructor
  · rw [calculate_alert_thresholds_eq_flatMap, calculate_alert_thresholds_eq_flatMap]
    exact map_fst_flatMap_congr bm _ _ (keys_thresholdEntries bm (2 - s1) (2 - s2))
  · intro p hp
    constructor
    · intro hstd
      refine ⟨by simp [thresholdEntries, hstd], ?_⟩
      rw [abs_mul, abs_mul, abs_of_pos h2a, abs_of_pos h2b]
      exact mul_le_mul_of_nonneg_left hfac (abs_nonneg _)
    · intro hstd sv hsv
      have hsv0 : 0 ≤ sv := hnn _ (dictLookup_mem bm _ sv hsv)
      have hmono : sv * (2 - s2) ≤ sv * (2 - s1) :=
        mul_le_mul_of_nonneg_left hfac hsv0
      exact ⟨by simp [thresholdEntries, hstd, hsv], by linarith, by linarith⟩

/-- C5 witness: a concrete nonnegative baseline at sensitivities 0 and 1,
whose two threshold mappings carry the same keys. -/
theorem C5_witness :
    (0 : ℚ) ≤ 0 ∧ (0 : ℚ) < 1 ∧ (1 : ℚ) ≤ 1 ∧
    (calculate_alert_thresholds [("avg_x", (10 : ℚ)), ("std_x", 2)] 0).map Prod.fst =
      (calculate_alert_thresholds [("avg_x", 10), ("std_x", 2)] 1).map Prod.fst :=
  ⟨le_refl 0, by norm_num, le_refl 1,
   (C5_threshold_tightening [("avg_x", 10), ("std_x", 2)] 0 1 (le_refl 0)
     (by norm_num) (le_refl 1) (by decide)).1⟩

/-- C5 counterexample: with the baseline `avg_x = −10`, `std_x = 1` and
sensitivities `s1 = 0 < s2 = 1`, the upper bound moves from −8 to −9, whose
magnitude is larger, not smaller — the claim's "smaller magnitude bound"
reading fails. -/
theorem C5_counterexample :
    calculate_alert_thresholds [("avg_x", -10), ("std_x", 1)] 0 =
      [("avg_x_upper", -8), ("avg_x_lower", -12), ("std_x_threshold", 2)] ∧
    calculate_alert_thresholds [("avg_x", -10), ("std_x", 1)] 1 =
      [("avg_x_upper", -9), ("avg_x_lower", -11), ("std_x_threshold", 1)] ∧
    ¬ |(-9 : ℚ)| < |(-8 : ℚ)| := by
  refine ⟨?_, ?_, by norm_num⟩ <;>
    · simp +decide [calculate_alert_thresholds, thresholdEntries, dictLookup]
      norm_num

/-- C2 (amended): whenever at least one historical record carries a usable
order date, the seasonal profile has exactly the twelve keys `month_1` …
`month_12` in order, and every month with no observation maps to ratio
exactly 1. -/
theorem C2_seasonal_profile (historical_data : List OrderItemRecord)
    (h : datedObservations historical_data ≠ []) :
    (calculate_seasonal_patterns historical_data).map Prod.fst =
      (List.range' 1 12).map (fun month => "month_" ++ toString month) ∧
    (calculate_seasonal_patterns historical_data).length = 12 ∧
    ∀ month ∈ List.range' 1 12,
      (∀ q ∈ datedObservations historical_data, q.1 ≠ month) →
      ("month_" ++ toString month, (1 : ℚ)) ∈
        calculate_seasonal_patterns historical_data := by
  have hne : historical_data ≠ [] := by
    intro he
    exact h (by simp [datedObservations, he])
  have h1 : historical_data.isEmpty = false := by
    cases historical_data with
    | nil => exact absurd rfl hne
    | cons x t => rfl
  have h2 : (datedObservations historical_data).isEmpty = false := by
    cases hd : datedObservations historical_data with
    | nil => exact absurd hd h
    | cons x t => rfl
  refine ⟨?_, ?_, ?_⟩
  · simp only [calculate_seasonal_patterns, h1, h2, Bool.false_eq_true, if_false,
      List.map_map]
    apply List.map_congr_left
    intro m _
    by_cases hc :
        ((datedObservations historical_data).filter (fun p => p.1 == m)).isEmpty <;>
      simp [hc]
  · simp [calculate_seasonal_patterns, h1, h2]
  · intro month hm hnone
    have hfil :
        (datedObservations historical_data).filter (fun p => p.1 == month) = [] :=
      List.filter_eq_nil_iff.2 (fun q hq => by simpa using hnone q hq)
    simp only [calculate_seasonal_patterns, h1, h2, Bool.false_eq_true, if_false]
    exact List.mem_map.2 ⟨month, hm, by simp [hfil]⟩

/-- C2 witness: a single record dated in month 3 yields a 12-entry
profile. -/
theorem C2_witness :
    datedObservations [⟨some 3, 5⟩] ≠ [] ∧
    (calculate_seasonal_patterns [⟨some 3, 5⟩]).length = 12 :=
  ⟨by decide, (C2_seasonal_profile [⟨some 3, 5⟩] (by decide)).2.1⟩

/-- C2 counterexample: on an empty historical record sequence the seasonal
computation returns the empty mapping — zero entries, not twelve. -/
theorem C2_counterexample :
    calculate_seasonal_patterns [] = [] ∧
    (calculate_seasonal_patterns []).length ≠ 12 := by
  exact ⟨rfl, by decide⟩

/-- C3 (amended): a malformed postal code — non-empty but whose 3-character
slice does not parse as an integer — on either side yields exactly the
500-mile default. (A *missing*, i.e. empty, code instead short-circuits to
prefix value 0 and the formula still applies; see the counterexample.) -/
theorem C3_malformed_default (origin_zip dest_zip : String)
    (h : zipNum origin_zip = none ∨ zipNum dest_zip = none) :
    estimate_distance origin_zip dest_zip = 500 := by
  rcases h with h | h
  · simp [estimate_distance, h]
  · cases ho : zipNum origin_zip <;> simp [estimate_distance, h, ho]

/-- C3 witness: an alphabetic origin code is malformed and forces the
500-mile default. -/
theorem C3_witness :
    zipNum "abc12" = none ∧ estimate_distance "abc12" "12345" = 500 :=
  ⟨by decide, C3_malformed_default "abc12" "12345" (Or.inl (by decide))⟩

/-- C3 counterexample: two *missing* (empty) postal codes yield 0 miles,
not the claimed 500 — the empty string bypasses parsing and is treated as
prefix value 0. -/
theorem C3_counterexample :
    estimate_distance "" "" = 0 ∧ estimate_distance "" "" ≠ 500 := by
  have h : estimate_distance "" "" = 0 := by
    simp [estimate_distance, zipNum]
  exact ⟨h, by rw [h]; norm_num⟩

/-- C9: on postal codes whose prefixes parse (which includes the empty
string, treated as prefix 0), the estimate is `|prefix difference| × 50`
capped at 3000 miles, never exceeds 3000 miles, and is monotone
(non-decreasing) in the prefix difference. -/
theorem C9_distance_formula (origin_zip dest_zip : String) (o d : Int)
    (h1 : zipNum origin_zip = some o) (h2 : zipNum dest_zip = some d) :
    estimate_distance origin_zip dest_zip =
      min (((o - d).natAbs : ℚ) * 50) 3000 ∧
    estimate_distance origin_zip dest_zip ≤ 3000 ∧
    ∀ (z1 z2 : String) (o2 d2 : Int), zipNum z1 = some o2 →
      zipNum z2 = some d2 → (o - d).natAbs ≤ (o2 - d2).natAbs →
      estimate_distance origin_zip dest_zip ≤ estimate_distance z1 z2 := by
  have he : estimate_distance origin_zip dest_zip =
      min (((o - d).natAbs : ℚ) * 50) 3000 := by
    simp [estimate_distance, h1, h2]
  refine ⟨he, by rw [he]; exact min_le_right _ _, ?_⟩
  intro z1 z2 o2 d2 g1 g2 hle
  have he2 : estimate_distance z1 z2 =
      min (((o2 - d2).natAbs : ℚ) * 50) 3000 := by
    simp [estimate_distance, g1, g2]
  rw [he, he2]
  have hc : (((o - d).natAbs : ℚ)) ≤ ((o2 - d2).natAbs : ℚ) := by
    exact_mod_cast hle
  exact min_le_min (mul_le_mul_of_nonneg_right hc (by norm_num)) le_rfl

/-- C9 witness: prefixes 123 and 124 differ by one unit, giving an estimate
within the 3000-mile cap. -/
theorem C9_witness :
    zipNum "12345" = some 123 ∧ zipNum "12445" = some 124 ∧
    estimate_distance "12345" "12445" ≤ 3000 :=
  ⟨by decide, by decide,
   (C9_distance_formula "12345" "12445" 123 124 (by decide) (by decide)).2.1⟩

/-- C4 (amended): a `forecast_days` outside `[1, 365]` or a `sensitivity`
outside `[0, 1]` is rejected by the declared pydantic constraints, but an
empty `product_ids` list is accepted — the model only requires the field to
be a list of strings and declares no minimum length. -/
theorem C4_request_validation (product_ids : List String)
    (forecast_days : Int) (sensitivity : ℚ) :
    (¬(1 ≤ forecast_days ∧ forecast_days ≤ 365) →
      demandForecastRequestValid product_ids forecast_days = false) ∧
    (¬(0 ≤ sensitivity ∧ sensitivity ≤ 1) →
      anomalyDetectionRequestValid sensitivity = false) ∧
    demandForecastRequestValid [] 30 = true := by
  refine ⟨?_, ?_, by decide⟩
  · intro h
    simp only [demandForecastRequestValid, Bool.and_eq_false_iff,
      decide_eq_false_iff_not]
    tauto
  · intro h
    simp only [anomalyDetectionRequestValid, Bool.and_eq_false_iff,
      decide_eq_false_iff_not]
    tauto

/-- C4 witness: 366 forecast days and sensitivity 2 are rejected, while an
empty product list with valid forecast days is accepted. -/
theorem C4_witness :
    demandForecastRequestValid [] 366 = false ∧
    anomalyDetectionRequestValid 2 = false ∧
    demandForecastRequestValid [] 30 = true :=
  ⟨(C4_request_validation [] 366 2).1 (by norm_num),
   (C4_request_validation [] 366 2).2.1 (by norm_num),
   (C4_request_validation [] 366 2).2.2⟩

/-- C4 counterexample: a request with an empty `product_ids` list (and
in-range `forecast_days`) passes validation, contradicting the claim that
it is rejected. -/
theorem C4_counterexample : demandForecastRequestValid [] 30 = true := by
  decide

/-- C6: normalization always overwrites `total_anomalies` with the length of
the normalized `anomalies` sequence, whatever count the oracle supplied. -/
theorem C6_total_anomalies (result : AnomalyOracleResult)
    (historical_data_len baseline_metrics_len : Nat) (time_range : Int × Int)
    (now : Int) :
    (enhance_detection_result result historical_data_len baseline_metrics_len
        time_range now).total_anomalies =
      ((enhance_detection_result result historical_data_len baseline_metrics_len
        time_range now).anomalies.length : Int) := rfl

/-- C7: when the oracle leaves `next_check_recommended` unset, normalization
sets it to `now + 15` minutes if some anomaly is critical, else `now + 60`
if any anomaly exists, else `now + 240`. -/
theorem C7_next_check (result : AnomalyOracleResult)
    (historical_data_len baseline_metrics_len : Nat) (time_range : Int × Int)
    (now : Int) (h : result.next_check_recommended = none) :
    (enhance_detection_result result historical_data_len baseline_metrics_len
        time_range now).next_check_recommended =
      (if (enhance_detection_result result historical_data_len
              baseline_metrics_len time_range now).anomalies.any
            (fun a => a.severity == "critical") then now + 15
       else if (enhance_detection_result result historical_data_len
              baseline_metrics_len time_range now).anomalies ≠ [] then now + 60
       else now + 240) := by
  obtain ⟨a?, ta, mc?, nc?⟩ := result
  simp only at h
  subst h
  cases a? with
  | none =>
    have hanom :
        (enhance_detection_result ⟨none, ta, mc?, none⟩ historical_data_len
          baseline_metrics_len time_range now).anomalies = [] := rfl
    rw [hanom]
    simp [enhance_detection_result]
  | some l =>
    have hanom :
        (enhance_detection_result ⟨some l, ta, mc?, none⟩ historical_data_len
          baseline_metrics_len time_range now).anomalies = l := rfl
    rw [hanom]
    simp only [enhance_detection_result]
    by_cases hl0 : l = []
    · subst hl0; simp
    · have hlen : (0 : Int) < (l.length : Int) := by
        exact_mod_cast List.length_pos.2 hl0
      rw [if_pos hlen]
      by_cases hcrit : l.any (fun a => a.severity == "critical") = true
      · obtain ⟨x, hx, hpx⟩ := List.any_eq_true.1 hcrit
        have hfl : 0 < (l.filter (fun a => a.severity == "critical")).length :=
          List.length_pos.2 (fun hn =>
            (List.filter_eq_nil_iff.1 hn) x hx (by simpa using hpx))
        rw [if_pos hfl, if_pos hcrit]
      · have hfl : l.filter (fun a => a.severity == "critical") = [] :=
          List.filter_eq_nil_iff.2 (fun a ha hpa =>
            hcrit (List.any_eq_true.2 ⟨a, ha, by simpa using hpa⟩))
        rw [if_neg (by simp [hfl]), if_neg (by simp [hcrit]), if_pos hl0]

/-- C7 witness: one critical anomaly with the recommendation unset yields a
next check 15 minutes after the evaluation time. -/
theorem C7_witness :
    (⟨some [⟨"critical"⟩], 5, some 1, none⟩ :
        AnomalyOracleResult).next_check_recommended = none ∧
    (enhance_detection_result ⟨some [⟨"critical"⟩], 5, some 1, none⟩ 0 0 (0, 0)
        100).next_check_recommended = 100 + 15 := by
  refine ⟨rfl, ?_⟩
  rw [C7_next_check ⟨some [⟨"critical"⟩], 5, some 1, none⟩ 0 0 (0, 0) 100 rfl]
  simp [enhance_detection_result]

/-- C8: when the oracle returns an empty forecasts list and `forecast_days`
lies in `[1, 365]`, normalization synthesizes exactly `min(forecast_days, 7)`
placeholder items, the i-th dated `now + i` with predicted demand 10,
confidence 0.7 and seasonal factor 1. -/
theorem C8_forecast_placeholder (result : DemandOracleResult)
    (forecast_days now : Int) (hd1 : 1 ≤ forecast_days)
    (hd2 : forecast_days ≤ 365) (he : result.forecasts = []) :
    (enhance_forecast_result result forecast_days now).forecasts.length =
      (min forecast_days 7).toNat ∧
    ∀ (i : Nat)
      (hi : i < (enhance_forecast_result result forecast_days now).forecasts.length),
      ((enhance_forecast_result result forecast_days now).forecasts.get
          ⟨i, hi⟩).date = now + i ∧
      ((enhance_forecast_result result forecast_days now).forecasts.get
          ⟨i, hi⟩).predicted_demand = 10 ∧
      ((enhance_forecast_result result forecast_days now).forecasts.get
          ⟨i, hi⟩).confidence_score = 7/10 ∧
      ((enhance_forecast_result result forecast_days now).forecasts.get
          ⟨i, hi⟩).seasonal_factor = some 1 := by
  obtain ⟨fl, ma⟩ := result
  simp only at he
  subst he
  have hE :
      (enhance_forecast_result ⟨[], ma⟩ forecast_days now).forecasts =
        (List.range (min forecast_days 7).toNat).map (fun (i : Nat) =>
          { product_id := "sample_product"
            warehouse_id := none
            date := now + (i : Int)
            predicted_demand := 10
            confidence_score := 7/10
            seasonal_factor := some 1 : DemandForecastItem }) := rfl
  constructor
  · rw [hE, List.length_map, List.length_range]
  · intro i hi
    simp only [List.get_eq_getElem, hE, List.getElem_map, List.getElem_range]
    simp

/-- C8 witness: `forecast_days = 3` yields exactly three placeholder
items. -/
theorem C8_witness :
    (1 : Int) ≤ 3 ∧ (3 : Int) ≤ 365 ∧
    (enhance_forecast_result ⟨[], none⟩ 3 0).forecasts.length = 3 := by
  refine ⟨by norm_num, by norm_num, ?_⟩
  have h := (C8_forecast_placeholder ⟨[], none⟩ 3 0 (by norm_num) (by norm_num)
    rfl).1
  simpa using h

/-- C10: every synthesized placeholder item carries the fixed
`product_id = "sample_product"` and `warehouse_id = None`; the requested
product and warehouse identifiers are not inputs of the normalizer at
all. -/
theorem C10_placeholder_ids (result : DemandOracleResult)
    (forecast_days now : Int) (he : result.forecasts = []) :
    ∀ item ∈ (enhance_forecast_result result forecast_days now).forecasts,
      item.product_id = "sample_product" ∧ item.warehouse_id = none := by
  intro item hmem
  simp only [enhance_forecast_result, he, List.isEmpty_nil, if_pos] at hmem
  obtain ⟨i, _, hitem⟩ := List.mem_map.1 hmem
  rw [← hitem]
  exact ⟨rfl, rfl⟩

/-- C10 witness: with an empty oracle list and three requested days, the
synthesized items all carry the fixed sample identifiers. -/
theorem C10_witness :
    (enhance_forecast_result ⟨[], none⟩ 3 0).forecasts ≠ [] ∧
    ((enhance_forecast_result ⟨[], none⟩ 3 0).forecasts.all
      (fun it => it.product_id == "sample_product" &&
        it.warehouse_id == none)) = true := by
  constructor
  · decide
  · rw [List.all_eq_true]
    intro x hx
    have h := C10_placeholder_ids ⟨[], none⟩ 3 0 rfl x hx
    simp [h.1, h.2]

end AiService
